import Mathlib

/-!
Verification of the asset-repair accounting module
(`erpnext/assets/doctype/asset_repair/asset_repair.py`).

The Python source is shallowly embedded below.  Conventions:

* Python floats carried by `flt` fields (costs, rates, values) are modelled
  as exact rationals (`ℚ`).
* Integer document fields are modelled as `Int`.
* Python `/` on numbers is true division, modelled as division in `ℚ`;
  Python `%` with a positive right operand agrees with `Int.emod`;
  Python `int(...)` truncation toward zero is `Int.tdiv` on a rational's
  numerator and denominator.
* `frappe.throw` aborts the request, modelled with `Except RepairError`.
* Calls into collaborating modules (stock entry creation, GL posting,
  depreciation-schedule regeneration, document saves) are modelled as
  recorded `Effect`s; the data those collaborators would supply
  (accounts, the active depreciation schedule's last date, accumulated
  depreciation) is passed in through an `Env`/per-row fields.
* Dates are triples year/month/day; `addMonths` models
  `frappe.utils.add_months` (dateutil `relativedelta`: shift the month,
  clamp the day to the target month's length).
-/

/-- Floor of a rational as an integer, computably: since the denominator is
positive, Euclidean division of the numerator by the denominator floors. -/
def floorQ (q : ℚ) : Int := q.num / (q.den : Int)

/-- Python `int(float(x))` / frappe `cint` applied to a numeric value:
truncation toward zero. -/
def cintQ (q : ℚ) : Int := Int.tdiv q.num (q.den : Int)

/-- Round-half-to-even of a rational to an integer: the rounding used by
Python's built-in `round` and by frappe's `rounded`/`flt(x, precision)`. -/
def roundHalfEven (q : ℚ) : Int :=
  let f := floorQ q
  let r := q - (f : ℚ)
  if r < 1/2 then f
  else if 1/2 < r then f + 1
  else if f % 2 == 0 then f else f + 1

/-- Python `round(x, p)` / frappe `rounded(x, p)` on exact rationals. -/
def pyRound (q : ℚ) (p : Nat) : ℚ :=
  ((roundHalfEven (q * (10 : ℚ) ^ p) : Int) : ℚ) / (10 : ℚ) ^ p

/-- Gregorian leap year test. -/
def isLeapYear (y : Int) : Bool :=
  y % 4 == 0 && (y % 100 != 0 || y % 400 == 0)

/-- Number of days in a month of a given year. -/
def daysInMonth (y m : Int) : Int :=
  if m == 2 then (if isLeapYear y then 29 else 28)
  else if m == 4 || m == 6 || m == 9 || m == 11 then 30
  else 31

/-- A calendar date; `month` ranges over 1..12 for dates built by
`addMonths` from well-formed dates. -/
structure Date where
  year : Int
  month : Int
  day : Int
deriving Repr, DecidableEq

/-- `frappe.utils.add_months` (dateutil `relativedelta(months=n)`): shift by
`n` months, clamping the day-of-month to the length of the target month. -/
def addMonths (d : Date) (n : Int) : Date :=
  let t := d.year * 12 + (d.month - 1) + n
  let y := t / 12
  let m := t % 12 + 1
  { year := y, month := m, day := min d.day (daysInMonth y m) }

/-- Strict chronological order on dates (lexicographic on year, month, day),
as a boolean, mirroring Python's date comparison. -/
def dateLt (a b : Date) : Bool :=
  a.year < b.year ||
    (a.year == b.year && (a.month < b.month || (a.month == b.month && a.day < b.day)))

example : addMonths ⟨2020, 1, 31⟩ 1 = ⟨2020, 2, 29⟩ := by decide
example : addMonths ⟨2025, 1, 1⟩ 2 = ⟨2025, 3, 1⟩ := by decide
example : addMonths ⟨2025, 1, 1⟩ (-2) = ⟨2024, 11, 1⟩ := by decide
example : dateLt ⟨2024, 12, 31⟩ ⟨2025, 1, 1⟩ = true := by decide

/-! ## Data model -/

/-- A row of the repair's `stock_items` child table. -/
structure StockItem where
  item_code : String
  valuation_rate : ℚ
  consumed_quantity : ℚ
  serial_no : Option String
  total_value : ℚ
deriving Repr, DecidableEq

/-- A Finance Book row of the linked Asset (`asset_doc.finance_books`).
`active_schedule_last_date` carries the `schedule_date` of the final row of
the row's Active depreciation schedule, i.e. what
`get_depr_schedule(asset.name, "Active", row.finance_book)[-1].schedule_date`
returns for this row. -/
structure FinanceBook where
  finance_book : String
  value_after_depreciation : ℚ
  /-- An integer-valued document field; held in `ℚ` because
  `modify_depreciation_schedule` adds a Python true-division quotient to it. -/
  total_number_of_depreciations : ℚ
  frequency_of_depreciation : Int
  depreciation_start_date : Date
  depreciation_method : String
  expected_value_after_useful_life : ℚ
  active_schedule_last_date : Date
deriving Repr, DecidableEq

/-- The linked Asset document (the fields this module reads or writes),
including the transient `flags` the module sets on it and the `to_date`
attribute written by the schedule-date correction. -/
structure Asset where
  calculate_depreciation : Bool
  number_of_depreciations_booked : Int
  finance_books : List FinanceBook
  flag_increase_in_asset_value_due_to_repair : Bool
  flag_increase_in_asset_life : Bool
  flag_ignore_validate_update_after_submit : Bool
  to_date : Option Date
deriving Repr, DecidableEq

/-- The Asset Repair document. -/
structure AssetRepair where
  repair_status : String
  repair_cost : ℚ
  total_repair_cost : ℚ
  stock_consumption : Bool
  capitalize_repair_cost : Bool
  increase_in_asset_life : Int
  stock_items : List StockItem
  warehouse : Option String
  purchase_invoice : Option String
  cost_center : Option String
deriving Repr, DecidableEq

/-- A row of the Stock Entry created by `decrease_stock_quantity`, as read
back by `get_gl_entries_for_consumed_items`. -/
structure StockEntryItem where
  expense_account : Option String
  amount : ℚ
deriving Repr, DecidableEq

/-- Data supplied by collaborating modules during submit. -/
structure Env where
  /-- `get_asset_account("fixed_asset_account", ...)`. -/
  fixed_asset_account : String
  /-- `frappe.get_doc("Purchase Invoice", ...).items[0].expense_account`. -/
  pi_expense_account : String
  /-- Items of the Stock Entry linked to this repair. -/
  stock_entry_items : List StockEntryItem
  /-- `erpnext.is_perpetual_inventory_enabled(company)`. -/
  perpetual_inventory : Bool
  /-- The company's `default_expense_account`, when configured. -/
  default_expense_account : Option String
  /-- `getdate()` at posting time. -/
  posting_date : Date
  /-- For a finance book, the maximum `accumulated_depreciation_amount`
  over the rows of its Active depreciation schedule. -/
  max_accum_depr : String → ℚ
  /-- `row.precision("expected_value_after_useful_life")`. -/
  precision_expected_value : Nat

/-- A general-ledger entry dict as produced by `get_gl_dict`; absent
debit/credit keys default to zero. -/
structure GLEntry where
  account : Option String
  debit : ℚ := 0
  credit : ℚ := 0
  against : Option String := none
  voucher_no : Option String := none
  cost_center : Option String := none
  posting_date : Date
  against_voucher_type : Option String := none
  against_voucher : Option String := none
deriving Repr, DecidableEq

/-- The user-facing validation failures this module can raise
(`frappe.throw` sites). -/
inductive RepairError where
  | pendingStatus
  | missingItems
  | missingWarehouse
  | missingDefaultExpenseAccount
deriving Repr, DecidableEq

/-- External side effects triggered during submit, in order. -/
inductive Effect where
  | stockEntryCreated
  | glEntriesPosted (entries : List GLEntry)
  | schedulesRegenerated
  | scheduleDocValueSet
  | assetSaved
deriving Repr, DecidableEq

/-! ## Validation-time computations -/

/-- `AssetRepair.set_stock_items_cost`: for each stock item,
`total_value = flt(valuation_rate) * flt(consumed_quantity)`. -/
def setStockItemsCost (r : AssetRepair) : AssetRepair :=
  { r with stock_items := r.stock_items.map fun item =>
      { item with total_value := item.valuation_rate * item.consumed_quantity } }

/-- `AssetRepair.get_total_value_of_stock_consumed`: starts from 0 and, only
when `stock_consumption` is set, accumulates each stock item's
`total_value`. -/
def getTotalValueOfStockConsumed (r : AssetRepair) : ℚ :=
  if r.stock_consumption then
    r.stock_items.foldl (fun acc item => acc + item.total_value) 0
  else 0

/-- `AssetRepair.calculate_total_repair_cost`:
`total_repair_cost = flt(repair_cost) + get_total_value_of_stock_consumed()`. -/
def calculateTotalRepairCost (r : AssetRepair) : AssetRepair :=
  { r with total_repair_cost := r.repair_cost + getTotalValueOfStockConsumed r }

/-- The cost-related part of `AssetRepair.validate`: recompute the stock
items' costs when the child table is non-empty, then the total repair
cost. -/
def validateCosts (r : AssetRepair) : AssetRepair :=
  let r := if r.stock_items.isEmpty then r else setStockItemsCost r
  calculateTotalRepairCost r

/-! ## Submission-time checks -/

/-- `AssetRepair.check_repair_status`: throw while `repair_status` is
"Pending". -/
def checkRepairStatus (r : AssetRepair) : Except RepairError Unit :=
  if r.repair_status = "Pending" then .error .pendingStatus else .ok ()

/-- `AssetRepair.check_for_stock_items_and_warehouse`: throw when the
`stock_items` table is empty, then when no warehouse is set. -/
def checkForStockItemsAndWarehouse (r : AssetRepair) : Except RepairError Unit :=
  if r.stock_items.isEmpty then .error .missingItems
  else if r.warehouse = none then .error .missingWarehouse
  else .ok ()

/-! ## Asset value adjustment -/

/-- `AssetRepair.increase_asset_value`: when the asset depreciates, add the
total value of stock consumed to each finance book row's
`value_after_depreciation`, plus `repair_cost` when
`capitalize_repair_cost` is set. -/
def increaseAssetValue (r : AssetRepair) (asset : Asset) : Asset :=
  let totalValueOfStockConsumed := getTotalValueOfStockConsumed r
  if asset.calculate_depreciation then
    { asset with finance_books := asset.finance_books.map fun row =>
        { row with value_after_depreciation :=
            row.value_after_depreciation + totalValueOfStockConsumed +
              (if r.capitalize_repair_cost then r.repair_cost else 0) } }
  else asset

/-- `AssetRepair.decrease_asset_value`: the cancellation counterpart of
`increaseAssetValue`, subtracting the same amounts. -/
def decreaseAssetValue (r : AssetRepair) (asset : Asset) : Asset :=
  let totalValueOfStockConsumed := getTotalValueOfStockConsumed r
  if asset.calculate_depreciation then
    { asset with finance_books := asset.finance_books.map fun row =>
        { row with value_after_depreciation :=
            row.value_after_depreciation - totalValueOfStockConsumed -
              (if r.capitalize_repair_cost then r.repair_cost else 0) } }
  else asset

/-! ## Ledger entries -/

/-- `AssetRepair.get_gl_entries_for_repair_cost`: when `repair_cost > 0`,
append a debit to the fixed-asset account and a matching credit to the
expense account of the linked Purchase Invoice's first item. -/
def getGlEntriesForRepairCost (r : AssetRepair) (env : Env)
    (glEntries : List GLEntry) (fixedAssetAccount : String) : List GLEntry :=
  if r.repair_cost ≤ 0 then glEntries
  else
    let piExpenseAccount := env.pi_expense_account
    glEntries ++
      [{ account := some fixedAssetAccount
         debit := r.repair_cost
         against := some piExpenseAccount
         cost_center := r.cost_center
         posting_date := env.posting_date
         against_voucher_type := some "Purchase Invoice"
         against_voucher := r.purchase_invoice },
       { account := some piExpenseAccount
         credit := r.repair_cost
         against := some fixedAssetAccount
         cost_center := r.cost_center
         posting_date := env.posting_date }]

/-- The body of the loop over Stock Entry items in
`get_gl_entries_for_consumed_items`: for an item with positive amount,
append a credit to its expense account (falling back to the company
default) and a matching debit to the fixed-asset account. -/
def consumedItemGlEntries (r : AssetRepair) (env : Env) (fixedAssetAccount : String)
    (defaultExpenseAccount : Option String) (gls : List GLEntry)
    (item : StockEntryItem) : List GLEntry :=
  if item.amount > 0 then
    let acct := match item.expense_account with
      | some a => some a
      | none => defaultExpenseAccount
    gls ++
      [{ account := acct
         credit := item.amount
         against := some fixedAssetAccount
         cost_center := r.cost_center
         posting_date := env.posting_date },
       { account := some fixedAssetAccount
         debit := item.amount
         against := acct
         cost_center := r.cost_center
         posting_date := env.posting_date
         against_voucher_type := some "Stock Entry" }]
  else gls

/-- `AssetRepair.get_gl_entries_for_consumed_items`: when stock was consumed,
resolve the default expense account (required unless inventory is
perpetual), then for every Stock Entry item with positive amount append a
credit to its expense account and a matching debit to the fixed-asset
account. -/
def getGlEntriesForConsumedItems (r : AssetRepair) (env : Env)
    (glEntries : List GLEntry) (fixedAssetAccount : String) :
    Except RepairError (List GLEntry) :=
  if !(r.stock_consumption && !r.stock_items.isEmpty) then .ok glEntries
  else
    let defaultExpenseAccount : Option String :=
      if env.perpetual_inventory then none else env.default_expense_account
    if !env.perpetual_inventory && env.default_expense_account = none then
      .error .missingDefaultExpenseAccount
    else
      .ok (env.stock_entry_items.foldl
        (consumedItemGlEntries r env fixedAssetAccount defaultExpenseAccount)
        glEntries)

/-- `AssetRepair.get_gl_entries`: repair-cost entries followed by
consumed-item entries, all against the asset's fixed-asset account. -/
def getGlEntries (r : AssetRepair) (env : Env) : Except RepairError (List GLEntry) :=
  let glEntries : List GLEntry := []
  let fixedAssetAccount := env.fixed_asset_account
  let glEntries := getGlEntriesForRepairCost r env glEntries fixedAssetAccount
  getGlEntriesForConsumedItems r env glEntries fixedAssetAccount

/-- `AssetRepair.make_gl_entries` (submit direction): post the entries only
when `flt(total_repair_cost) > 0`. -/
def makeGlEntriesEffects (r : AssetRepair) (env : Env) :
    Except RepairError (List Effect) :=
  if r.total_repair_cost > 0 then do
    let glEntries ← getGlEntries r env
    .ok [Effect.glEntriesPosted glEntries]
  else .ok []

/-! ## Depreciation schedule adjustment -/

/-- `AssetRepair.calculate_last_schedule_date` (submit direction), "to help
modify depreciation schedule when increase_in_asset_life is not a multiple
of frequency_of_depreciation": compare the last Active-schedule date
shifted forward by the extra months with the latest date reachable without
changing the number of depreciations, and add one more depreciation when
the former is later. -/
def calculateLastScheduleDate (asset : Asset) (row : FinanceBook)
    (extraMonths : Int) : Asset × FinanceBook :=
  let asset := { asset with flag_increase_in_asset_life := true }
  let numberOfPendingDepreciations : Int :=
    cintQ row.total_number_of_depreciations - asset.number_of_depreciations_booked
  let lastScheduleDate := row.active_schedule_last_date
  let toDate := addMonths lastScheduleDate extraMonths
  let asset := { asset with to_date := some toDate }
  let scheduleDate := addMonths row.depreciation_start_date
    (numberOfPendingDepreciations * row.frequency_of_depreciation)
  if dateLt scheduleDate toDate then
    (asset, { row with total_number_of_depreciations :=
        row.total_number_of_depreciations + 1 })
  else (asset, row)

/-- `AssetRepair.modify_depreciation_schedule`: for each finance book row,
add `increase_in_asset_life / frequency_of_depreciation` (Python true
division) to `total_number_of_depreciations`, then run the extra-months
correction when the increase is not a multiple of the frequency. -/
def modifyDepreciationSchedule (r : AssetRepair) (asset : Asset) : Asset :=
  let step := fun (acc : Asset × List FinanceBook) (row : FinanceBook) =>
    let (asset, rows) := acc
    let row := { row with total_number_of_depreciations :=
        row.total_number_of_depreciations +
          (r.increase_in_asset_life : ℚ) / (row.frequency_of_depreciation : ℚ) }
    let asset := { asset with flag_increase_in_asset_life := false }
    let extraMonths := r.increase_in_asset_life % row.frequency_of_depreciation
    if extraMonths != 0 then
      let (asset, row) := calculateLastScheduleDate asset row extraMonths
      (asset, rows ++ [row])
    else (asset, rows ++ [row])
  let (asset, rows) := asset.finance_books.foldl step (asset, [])
  { asset with finance_books := rows }

/-- `AssetRepair.calculate_last_schedule_date_before_modification` (cancel
direction): compare the last Active-schedule date shifted back by the
extra months with the latest date reachable without decreasing the number
of depreciations, and remove one more depreciation when the former is
earlier. -/
def calculateLastScheduleDateBeforeModification (asset : Asset)
    (row : FinanceBook) (extraMonths : Int) : Asset × FinanceBook :=
  let asset := { asset with flag_increase_in_asset_life := true }
  let numberOfPendingDepreciations : Int :=
    cintQ row.total_number_of_depreciations - asset.number_of_depreciations_booked
  let lastScheduleDate := row.active_schedule_last_date
  let toDate := addMonths lastScheduleDate (-extraMonths)
  let asset := { asset with to_date := some toDate }
  let scheduleDate := addMonths row.depreciation_start_date
    ((numberOfPendingDepreciations - 1) * row.frequency_of_depreciation)
  if dateLt toDate scheduleDate then
    (asset, { row with total_number_of_depreciations :=
        row.total_number_of_depreciations - 1 })
  else (asset, row)

/-- `AssetRepair.revert_depreciation_schedule_on_cancellation`: the
cancellation counterpart of `modifyDepreciationSchedule`. -/
def revertDepreciationScheduleOnCancellation (r : AssetRepair) (asset : Asset) :
    Asset :=
  let step := fun (acc : Asset × List FinanceBook) (row : FinanceBook) =>
    let (asset, rows) := acc
    let row := { row with total_number_of_depreciations :=
        row.total_number_of_depreciations -
          (r.increase_in_asset_life : ℚ) / (row.frequency_of_depreciation : ℚ) }
    let asset := { asset with flag_increase_in_asset_life := false }
    let extraMonths := r.increase_in_asset_life % row.frequency_of_depreciation
    if extraMonths != 0 then
      let (asset, row) := calculateLastScheduleDateBeforeModification asset row extraMonths
      (asset, rows ++ [row])
    else (asset, rows ++ [row])
  let (asset, rows) := asset.finance_books.foldl step (asset, [])
  { asset with finance_books := rows }

/-- `AssetRepair.update_asset_expected_value_after_useful_life`: for finance
book rows depreciated by Written Down Value or Double Declining Balance,
recompute `expected_value_after_useful_life` from the end-of-schedule
accumulated depreciation and write it back to the schedule document. -/
def updateAssetExpectedValueAfterUsefulLife (env : Env) (asset : Asset) :
    Asset × List Effect :=
  let step := fun (acc : List FinanceBook × List Effect) (row : FinanceBook) =>
    let (rows, effects) := acc
    if row.depreciation_method == "Written Down Value" ||
        row.depreciation_method == "Double Declining Balance" then
      let accumulatedDepreciationAfterFullSchedule :=
        env.max_accum_depr row.finance_book
      let assetValueAfterFullSchedule :=
        pyRound (row.value_after_depreciation - accumulatedDepreciationAfterFullSchedule)
          env.precision_expected_value
      (rows ++ [{ row with expected_value_after_useful_life := assetValueAfterFullSchedule }],
       effects ++ [Effect.scheduleDocValueSet])
    else (rows ++ [row], effects)
  let (rows, effects) := asset.finance_books.foldl step ([], [])
  ({ asset with finance_books := rows }, effects)

/-! ## Submission -/

/-- `AssetRepair.before_submit`: check the repair status; when stock is
consumed or the cost is capitalized, raise the asset's value, consume the
stock, post the ledger entries, adjust the depreciation schedule for a
life increase, regenerate the active schedules, and save the Asset. -/
def beforeSubmit (r : AssetRepair) (asset : Asset) (env : Env) :
    Except RepairError (Asset × List Effect) := do
  checkRepairStatus r
  let asset := { asset with flag_increase_in_asset_value_due_to_repair := false }
  if r.stock_consumption || r.capitalize_repair_cost then
    let asset := { asset with flag_increase_in_asset_value_due_to_repair := true }
    let asset := increaseAssetValue r asset
    let stockEffects ←
      if r.stock_consumption then do
        checkForStockItemsAndWarehouse r
        .ok [Effect.stockEntryCreated]
      else .ok ([] : List Effect)
    let (asset, capEffects) ←
      if r.capitalize_repair_cost then do
        let glEffects ← makeGlEntriesEffects r env
        if asset.calculate_depreciation && r.increase_in_asset_life != 0 then
          .ok (modifyDepreciationSchedule r asset, glEffects)
        else .ok (asset, glEffects)
      else .ok (asset, ([] : List Effect))
    let asset := { asset with flag_ignore_validate_update_after_submit := true }
    let (asset, scheduleEffects) :=
      if asset.calculate_depreciation then
        let (asset, effects) := updateAssetExpectedValueAfterUsefulLife env asset
        (asset, [Effect.schedulesRegenerated] ++ effects)
      else (asset, [Effect.schedulesRegenerated])
    .ok (asset, stockEffects ++ capEffects ++ scheduleEffects ++ [Effect.assetSaved])
  else
    .ok (asset, [])

/-! ## Downtime -/

/-- `frappe.utils.time_diff_in_hours`: the difference of two timestamps
(modelled in seconds) in hours, rounded to 6 decimal places. -/
def timeDiffInHours (edDate stDate : ℚ) : ℚ :=
  pyRound ((edDate - stDate) / 3600) 6

/-- `get_downtime(failure_date, completion_date)`: hours from failure to
completion, rounded to 2 decimal places. -/
def getDowntime (failureDate completionDate : ℚ) : ℚ :=
  pyRound (timeDiffInHours completionDate failureDate) 2

/-! ## Sample documents used by witnesses and concrete evaluations -/

/-- A sample consumed stock item. -/
def sampleStockItem : StockItem :=
  { item_code := "ITEM-001", valuation_rate := 25, consumed_quantity := 4,
    serial_no := none, total_value := 100 }

/-- A sample finance book row (monthly-style schedule with yearly frequency). -/
def sampleRow : FinanceBook :=
  { finance_book := "FB1", value_after_depreciation := 1000,
    total_number_of_depreciations := 60, frequency_of_depreciation := 12,
    depreciation_start_date := ⟨2020, 1, 1⟩,
    depreciation_method := "Straight Line",
    expected_value_after_useful_life := 0,
    active_schedule_last_date := ⟨2025, 1, 1⟩ }

/-- A sample depreciating asset holding `sampleRow`. -/
def sampleAsset : Asset :=
  { calculate_depreciation := true, number_of_depreciations_booked := 0,
    finance_books := [sampleRow],
    flag_increase_in_asset_value_due_to_repair := false,
    flag_increase_in_asset_life := false,
    flag_ignore_validate_update_after_submit := false, to_date := none }

/-- `sampleAsset` with depreciation calculation turned off. -/
def sampleAssetNoDepr : Asset :=
  { sampleAsset with calculate_depreciation := false }

/-- A sample completed repair that capitalizes its cost and extends the
asset's life by 14 months. -/
def sampleRepair : AssetRepair :=
  { repair_status := "Completed", repair_cost := 100, total_repair_cost := 100,
    stock_consumption := false, capitalize_repair_cost := true,
    increase_in_asset_life := 14, stock_items := [], warehouse := none,
    purchase_invoice := some "PI-001", cost_center := none }

/-- A sample environment for ledger posting. -/
def sampleEnv : Env :=
  { fixed_asset_account := "Fixed Asset - C", pi_expense_account := "Repairs - C",
    stock_entry_items := [{ expense_account := some "Stock Expense - C", amount := 100 }],
    perpetual_inventory := true, default_expense_account := none,
    posting_date := ⟨2024, 6, 1⟩, max_accum_depr := fun _ => 0,
    precision_expected_value := 2 }

/-! ## Spec-side measures -/

/-- Total debit amount of a list of ledger entries. -/
def sumDebit (glEntries : List GLEntry) : ℚ := (glEntries.map GLEntry.debit).sum

/-- Total credit amount of a list of ledger entries. -/
def sumCredit (glEntries : List GLEntry) : ℚ := (glEntries.map GLEntry.credit).sum

/-! ## Helper lemmas -/

theorem foldl_add_total_value (l : List StockItem) (a : ℚ) :
    l.foldl (fun acc item => acc + item.total_value) a =
      a + (l.map StockItem.total_value).sum := by
  induction l generalizing a with
  | nil => simp
  | cons x xs ih => simp [ih, add_assoc]

theorem floorQ_eq_floor (q : ℚ) : floorQ q = ⌊q⌋ := Rat.floor_def.symm

theorem except_error_bind {α β : Type} {e : RepairError}
    (f : α → Except RepairError β) :
    (Except.error e : Except RepairError α) >>= f = Except.error e := rfl

theorem except_ok_bind {α β : Type} {a : α} (f : α → Except RepairError β) :
    (Except.ok a : Except RepairError α) >>= f = f a := rfl

/-! ## Claim C6 -/

/-- Claim C6: after validation, `total_repair_cost` equals `repair_cost` plus
the sum of the stock lines' `total_value` (each recomputed as
`valuation_rate * consumed_quantity`) when `stock_consumption` is enabled,
and equals `repair_cost` alone otherwise; and
`get_total_value_of_stock_consumed` returns the sum of the stock lines'
`total_value` when `stock_consumption` is enabled and `0` otherwise. -/
theorem c6_total_repair_cost (r : AssetRepair) :
    ((validateCosts r).total_repair_cost =
      if r.stock_consumption then
        r.repair_cost +
          (r.stock_items.map fun item =>
            item.valuation_rate * item.consumed_quantity).sum
      else r.repair_cost) ∧
    (getTotalValueOfStockConsumed r =
      if r.stock_consumption then (r.stock_items.map StockItem.total_value).sum
      else 0) := by
  constructor
  · unfold validateCosts calculateTotalRepairCost setStockItemsCost
      getTotalValueOfStockConsumed
    by_cases hempty : r.stock_items.isEmpty
    · rw [List.isEmpty_iff] at hempty
      by_cases hsc : r.stock_consumption <;>
        simp [hempty, hsc, foldl_add_total_value]
    · by_cases hsc : r.stock_consumption <;>
        simp [hempty, hsc, foldl_add_total_value, Function.comp_def]
  · unfold getTotalValueOfStockConsumed
    by_cases hsc : r.stock_consumption <;> simp [hsc, foldl_add_total_value]

/-! ## Claim C3 -/

/-- Claim C3: running `increase_asset_value` and then `decrease_asset_value`
with the same repair record (same repair cost, flags and stock line
values) restores `value_after_depreciation` of every finance book row —
indeed the whole Asset — to its value before the increase. -/
theorem c3_decrease_inverts_increase (r : AssetRepair) (asset : Asset) :
    decreaseAssetValue r (increaseAssetValue r asset) = asset := by
  obtain ⟨cd, nb, fb, f1, f2, f3, td⟩ := asset
  unfold increaseAssetValue decreaseAssetValue
  cases cd
  · rfl
  · simp only [if_true, Asset.mk.injEq, true_and, and_true]
    induction fb with
    | nil => rfl
    | cons row rows ih =>
      simp only [List.map_cons, List.cons.injEq]
      refine ⟨?_, ih⟩
      cases row
      simp only [FinanceBook.mk.injEq, and_true, true_and]
      ring

/-! ## Claim C9 -/

/-- Claim C9: when the asset's `calculate_depreciation` flag is off,
`increase_asset_value` and `decrease_asset_value` leave every finance book
row — in fact the whole Asset — unchanged, whatever the repair's cost,
flags, or stock values. -/
theorem c9_no_depreciation_no_value_change (r : AssetRepair) (asset : Asset)
    (h : asset.calculate_depreciation = false) :
    increaseAssetValue r asset = asset ∧ decreaseAssetValue r asset = asset := by
  unfold increaseAssetValue decreaseAssetValue
  simp [h]

/-- Witness for claim C9 at a concrete non-depreciating asset. -/
theorem c9_witness :
    increaseAssetValue sampleRepair sampleAssetNoDepr = sampleAssetNoDepr ∧
      decreaseAssetValue sampleRepair sampleAssetNoDepr = sampleAssetNoDepr :=
  c9_no_depreciation_no_value_change sampleRepair sampleAssetNoDepr (by decide)

/-! ## Claim C4 -/

/-- Claim C4: whenever `repair_status` is "Pending", `before_submit` raises
the update-repair-status validation error: submission fails before any
asset, stock, or ledger mutation is attempted (no state or effect is
produced). -/
theorem c4_pending_blocks_submission (r : AssetRepair) (asset : Asset) (env : Env)
    (h : r.repair_status = "Pending") :
    beforeSubmit r asset env = .error .pendingStatus := by
  unfold beforeSubmit checkRepairStatus
  simp [h, except_error_bind]

/-- Witness for claim C4 at a concrete pending repair. -/
theorem c4_witness :
    beforeSubmit { sampleRepair with repair_status := "Pending" } sampleAsset
      sampleEnv = .error .pendingStatus :=
  c4_pending_blocks_submission { sampleRepair with repair_status := "Pending" }
    sampleAsset sampleEnv rfl

/-! ## Claim C8 -/

/-- Claim C8: with neither `stock_consumption` nor `capitalize_repair_cost`
set, `before_submit` (once the repair-status check passes) changes no
Asset finance book field, creates no stock entry, posts no ledger
entries, touches no depreciation schedule, and does not save the Asset:
only the transient in-memory repair flag is reset. -/
theorem c8_no_flags_no_mutation (r : AssetRepair) (asset : Asset) (env : Env)
    (hst : r.repair_status ≠ "Pending") (hsc : r.stock_consumption = false)
    (hcap : r.capitalize_repair_cost = false) :
    beforeSubmit r asset env =
      .ok ({ asset with flag_increase_in_asset_value_due_to_repair := false },
        ([] : List Effect)) := by
  unfold beforeSubmit checkRepairStatus
  simp [hst, hsc, hcap, except_ok_bind]

/-- Witness for claim C8 at a concrete repair with both flags off. -/
theorem c8_witness :
    beforeSubmit { sampleRepair with capitalize_repair_cost := false } sampleAsset
        sampleEnv =
      .ok ({ sampleAsset with flag_increase_in_asset_value_due_to_repair := false },
        ([] : List Effect)) :=
  c8_no_flags_no_mutation { sampleRepair with capitalize_repair_cost := false }
    sampleAsset sampleEnv (by decide) rfl rfl

/-! ## Claim C5 -/

/-- Claim C5: for a repair with `stock_consumption` set (and the repair
status finalized), submission fails with the missing-items error when the
stock-items table is empty, and with the missing-warehouse error when
stock items exist but no warehouse is set; with `stock_consumption` off,
neither of those errors can be raised by submission. -/
theorem c5_stock_checks (r : AssetRepair) (asset : Asset) (env : Env)
    (hst : r.repair_status ≠ "Pending") :
    (r.stock_consumption = true → r.stock_items = [] →
      beforeSubmit r asset env = .error .missingItems) ∧
    (r.stock_consumption = true → r.stock_items ≠ [] → r.warehouse = none →
      beforeSubmit r asset env = .error .missingWarehouse) ∧
    (r.stock_consumption = false →
      beforeSubmit r asset env ≠ .error .missingItems ∧
        beforeSubmit r asset env ≠ .error .missingWarehouse) := by
  refine ⟨?_, ?_, ?_⟩
  · intro hsc hempty
    unfold beforeSubmit checkRepairStatus checkForStockItemsAndWarehouse
    simp [hst, hsc, hempty, except_ok_bind, except_error_bind]
  · intro hsc hnonempty hwh
    have hne : r.stock_items.isEmpty = false := by
      cases h2 : r.stock_items with
      | nil => exact absurd h2 hnonempty
      | cons a as => rfl
    unfold beforeSubmit checkRepairStatus checkForStockItemsAndWarehouse
    simp [hst, hsc, hne, hwh, except_ok_bind, except_error_bind]
  · intro hsc
    have hok : ∃ out, beforeSubmit r asset env = .ok out := by
      unfold beforeSubmit checkRepairStatus makeGlEntriesEffects getGlEntries
        getGlEntriesForConsumedItems
      by_cases hcap : r.capitalize_repair_cost <;>
        by_cases htot : r.total_repair_cost > 0 <;>
          simp [hst, hsc, hcap, htot, except_ok_bind, except_error_bind] <;>
            (repeat' split) <;> simp
    obtain ⟨out, hout⟩ := hok
    rw [hout]
    exact ⟨by simp, by simp⟩

/-- Witness for claim C5: a concrete stock-consuming repair with no stock
items fails with the missing-items error. -/
theorem c5_witness :
    beforeSubmit { sampleRepair with stock_consumption := true } sampleAsset
      sampleEnv = .error .missingItems :=
  (c5_stock_checks { sampleRepair with stock_consumption := true } sampleAsset
    sampleEnv (by decide)).1 rfl rfl

/-! ## Claim C2 -/

theorem sumDebit_append (a b : List GLEntry) :
    sumDebit (a ++ b) = sumDebit a + sumDebit b := by
  simp [sumDebit]

theorem sumCredit_append (a b : List GLEntry) :
    sumCredit (a ++ b) = sumCredit a + sumCredit b := by
  simp [sumCredit]

theorem repair_cost_entries_balanced (r : AssetRepair) (env : Env)
    (gls : List GLEntry) (fixedAssetAccount : String) :
    sumDebit (getGlEntriesForRepairCost r env gls fixedAssetAccount) -
        sumCredit (getGlEntriesForRepairCost r env gls fixedAssetAccount) =
      sumDebit gls - sumCredit gls := by
  unfold getGlEntriesForRepairCost
  split
  · rfl
  · simp [sumDebit_append, sumDebit, sumCredit_append, sumCredit]

theorem consumed_item_step_balanced (r : AssetRepair) (env : Env)
    (fixedAssetAccount : String) (defaultExpenseAccount : Option String)
    (gls : List GLEntry) (item : StockEntryItem) :
    sumDebit (consumedItemGlEntries r env fixedAssetAccount defaultExpenseAccount
          gls item) -
        sumCredit (consumedItemGlEntries r env fixedAssetAccount
          defaultExpenseAccount gls item) =
      sumDebit gls - sumCredit gls := by
  unfold consumedItemGlEntries
  split
  · simp [sumDebit_append, sumDebit, sumCredit_append, sumCredit]
  · rfl

theorem consumed_items_fold_balanced (r : AssetRepair) (env : Env)
    (fixedAssetAccount : String) (defaultExpenseAccount : Option String)
    (items : List StockEntryItem) :
    ∀ gls : List GLEntry,
      sumDebit (items.foldl (consumedItemGlEntries r env fixedAssetAccount
            defaultExpenseAccount) gls) -
          sumCredit (items.foldl (consumedItemGlEntries r env fixedAssetAccount
            defaultExpenseAccount) gls) =
        sumDebit gls - sumCredit gls := by
  induction items with
  | nil => intro gls; rfl
  | cons item rest ih =>
    intro gls
    rw [List.foldl_cons, ih, consumed_item_step_balanced]

/-- Claim C2: whenever `get_gl_entries` succeeds, the ledger entries it
returns are balanced: the total debit amount equals the total credit
amount, the repair-cost pair and each consumed-item pair contributing
equal debit and credit. -/
theorem c2_gl_entries_balanced (r : AssetRepair) (env : Env)
    (glEntries : List GLEntry)
    (h : getGlEntries r env = .ok glEntries) :
    sumDebit glEntries = sumCredit glEntries := by
  have hbal : sumDebit glEntries - sumCredit glEntries = 0 := by
    unfold getGlEntries getGlEntriesForConsumedItems at h
    by_cases hguard : (!(r.stock_consumption && !r.stock_items.isEmpty)) = true
    · rw [if_pos hguard] at h
      cases h
      rw [repair_cost_entries_balanced]
      simp [sumDebit, sumCredit]
    · rw [if_neg hguard] at h
      by_cases hperp : env.perpetual_inventory = true
      · simp only [hperp, Bool.not_true, Bool.false_and, if_true, if_false,
          Bool.false_eq_true, Except.ok.injEq] at h
        rw [← h, consumed_items_fold_balanced, repair_cost_entries_balanced]
        simp [sumDebit, sumCredit]
      · have hperp' : env.perpetual_inventory = false := by
          simpa using hperp
        by_cases hdef : env.default_expense_account = none
        · simp [hperp', hdef] at h
        · simp only [hperp', Bool.not_false, Bool.true_and, hdef, decide_False,
            if_false, Bool.false_eq_true, if_true, Except.ok.injEq] at h
          rw [← h, consumed_items_fold_balanced, repair_cost_entries_balanced]
          simp [sumDebit, sumCredit]
  linarith [hbal]

/-- Witness for claim C2 at a concrete repair whose ledger posting
succeeds. -/
theorem c2_witness :
    sumDebit ((getGlEntries sampleRepair sampleEnv).toOption.getD []) =
      sumCredit ((getGlEntries sampleRepair sampleEnv).toOption.getD []) :=
  c2_gl_entries_balanced sampleRepair sampleEnv
    ((getGlEntries sampleRepair sampleEnv).toOption.getD []) rfl

/-! ## Claim C7 -/

/-- Claim C7: when the life increase is not a multiple of the depreciation
frequency (nonzero extra months), the submit-side correction shifts the
last Active-schedule date forward by the extra months, compares it with
the natural date `depreciation_start_date + pending_depreciations *
frequency`, and adds exactly one extra depreciation when the shifted date
is later; the cancel-side correction shifts the last date back by the
extra months and subtracts exactly one when the shifted date falls short
of the corresponding natural date. -/
theorem c7_remainder_correction (asset : Asset) (row : FinanceBook)
    (extraMonths : Int) (_hextra : extraMonths ≠ 0) :
    ((calculateLastScheduleDate asset row extraMonths).2.total_number_of_depreciations =
      row.total_number_of_depreciations +
        (if dateLt
            (addMonths row.depreciation_start_date
              ((cintQ row.total_number_of_depreciations -
                  asset.number_of_depreciations_booked) *
                row.frequency_of_depreciation))
            (addMonths row.active_schedule_last_date extraMonths) = true
         then 1 else 0)) ∧
    ((calculateLastScheduleDateBeforeModification asset row
          extraMonths).2.total_number_of_depreciations =
      row.total_number_of_depreciations -
        (if dateLt (addMonths row.active_schedule_last_date (-extraMonths))
            (addMonths row.depreciation_start_date
              ((cintQ row.total_number_of_depreciations -
                  asset.number_of_depreciations_booked - 1) *
                row.frequency_of_depreciation)) = true
         then 1 else 0)) := by
  constructor
  · unfold calculateLastScheduleDate
    split <;> simp_all
  · unfold calculateLastScheduleDateBeforeModification
    split <;> simp_all

/-- Witness for claim C7 at a concrete asset, finance book row, and a
2-month remainder. -/
theorem c7_witness :
    ((calculateLastScheduleDate sampleAsset sampleRow 2).2.total_number_of_depreciations =
      sampleRow.total_number_of_depreciations +
        (if dateLt
            (addMonths sampleRow.depreciation_start_date
              ((cintQ sampleRow.total_number_of_depreciations -
                  sampleAsset.number_of_depreciations_booked) *
                sampleRow.frequency_of_depreciation))
            (addMonths sampleRow.active_schedule_last_date 2) = true
         then 1 else 0)) ∧
    ((calculateLastScheduleDateBeforeModification sampleAsset sampleRow
          2).2.total_number_of_depreciations =
      sampleRow.total_number_of_depreciations -
        (if dateLt (addMonths sampleRow.active_schedule_last_date (-2))
            (addMonths sampleRow.depreciation_start_date
              ((cintQ sampleRow.total_number_of_depreciations -
                  sampleAsset.number_of_depreciations_booked - 1) *
                sampleRow.frequency_of_depreciation)) = true
         then 1 else 0)) :=
  c7_remainder_correction sampleAsset sampleRow 2 (by decide)

/-! ## Claim C1 -/

/-- Claim C1 (evaluation at the failing input): with
`increase_in_asset_life = 14` and `frequency_of_depreciation = 12`,
`modify_depreciation_schedule` adds the Python true-division quotient
`14 / 12 = 7/6` to `total_number_of_depreciations` (here `60 ↦ 367/6`),
not the claimed floor quotient `14 // 12 = 1` — the remainder correction
does not fire at this input, and the resulting count is fractional rather
than `61`. -/
theorem c1_true_division_not_floor :
    (modifyDepreciationSchedule sampleRepair sampleAsset).finance_books.map
        (fun row => row.total_number_of_depreciations) = [367/6] ∧
    (367/6 : ℚ) ≠ 60 + 1 := by
  constructor
  · unfold modifyDepreciationSchedule calculateLastScheduleDate
    simp only [sampleAsset, sampleRepair, sampleRow, List.foldl_cons,
      List.foldl_nil]
    norm_num [cintQ, dateLt, addMonths, daysInMonth, isLeapYear,
      show Int.tdiv 367 6 = 61 from by decide]
  · norm_num

/-! ## Claim C10 -/

theorem roundHalfEven_nonpos (q : ℚ) (hq : q ≤ 0) : roundHalfEven q ≤ 0 := by
  simp only [roundHalfEven, floorQ_eq_floor]
  have h0 : ⌊q⌋ ≤ 0 := by
    have h := Int.floor_le_floor (α := ℚ) hq
    simpa using h
  split
  · exact h0
  · rename_i h1
    have hfr : (1/2 : ℚ) ≤ q - ⌊q⌋ := le_of_not_lt h1
    have hflt : (⌊q⌋ : ℚ) < 0 := by linarith
    have hf : ⌊q⌋ < 0 := by exact_mod_cast hflt
    split
    · omega
    · split <;> omega

theorem pyRound_nonpos (q : ℚ) (p : Nat) (hq : q ≤ 0) : pyRound q p ≤ 0 := by
  unfold pyRound
  have h1 : q * (10:ℚ)^p ≤ 0 :=
    mul_nonpos_iff.mpr (Or.inr ⟨hq, by positivity⟩)
  have h2 : roundHalfEven (q * (10:ℚ)^p) ≤ 0 := roundHalfEven_nonpos _ h1
  have h3 : ((roundHalfEven (q * (10:ℚ)^p) : Int) : ℚ) ≤ 0 := by exact_mod_cast h2
  exact div_nonpos_of_nonpos_of_nonneg h3 (by positivity)

/-- Counterexample to claim C10 as stated: with failure at second 1 and
completion at second 0 the completion is strictly earlier, yet
`get_downtime` returns 0 — not a negative number — because the 1-second
gap rounds to zero at 2 decimal places. -/
theorem c10_counterexample :
    (0 : ℚ) < 1 ∧ getDowntime 1 0 = 0 ∧ ¬ getDowntime 1 0 < 0 := by
  refine ⟨by norm_num, ?_, ?_⟩
  · unfold getDowntime timeDiffInHours pyRound roundHalfEven
    norm_num [floorQ]
  · have h : getDowntime 1 0 = 0 := by
      unfold getDowntime timeDiffInHours pyRound roundHalfEven
      norm_num [floorQ]
    rw [h]
    norm_num

/-- Claim C10 (amended): whenever `completion_date` is earlier than
`failure_date`, `get_downtime` returns a non-positive number of hours —
zero when the gap rounds to zero at 2 decimal places, negative otherwise —
with no ordering validation and no error raised. -/
theorem c10_downtime_nonpositive (failureDate completionDate : ℚ)
    (h : completionDate < failureDate) :
    getDowntime failureDate completionDate ≤ 0 := by
  unfold getDowntime timeDiffInHours
  apply pyRound_nonpos
  apply pyRound_nonpos
  exact div_nonpos_of_nonpos_of_nonneg (by linarith) (by norm_num)

/-- Witness for claim C10 with completion two hours before failure. -/
theorem c10_witness : (0 : ℚ) < 7200 ∧ getDowntime 7200 0 ≤ 0 :=
  ⟨by norm_num, c10_downtime_nonpositive 7200 0 (by norm_num)⟩
